import Mathlib

/-!
Verification of the AirAware frontend's client-side logic layer: station
field normalization, selection state, the map overlay builder, and the
route summarizer.  JavaScript values are embedded shallowly as `JSVal`
(numbers as rationals, NaN represented by `Option.none` at `parseFloat`);
the relevant components from `App.js` (src/unnamed/part_001),
`MapView.js` and `RoutePanel.js` are translated as executable functions
over this embedding.
-/

/-- A JavaScript value, as far as the frontend logic inspects one:
undefined, null, booleans, numbers (modelled as rationals; NaN never
occurs as a stored value in this code, it only arises from `parseFloat`,
which we give type `Option ℚ`), strings, arrays, and plain objects
(association lists of string keys). -/
inductive JSVal where
  | undef : JSVal
  | null : JSVal
  | bool : Bool → JSVal
  | num : ℚ → JSVal
  | str : String → JSVal
  | arr : List JSVal → JSVal
  | obj : List (String × JSVal) → JSVal
deriving Repr

namespace JSVal

/-- JavaScript truthiness: `undefined`, `null`, `false`, `0`, and `""`
are falsy; every other value (including empty arrays and objects) is
truthy. -/
def truthy : JSVal → Bool
  | .undef => false
  | .null => false
  | .bool b => b
  | .num q => decide (q ≠ 0)
  | .str s => decide (s ≠ "")
  | .arr _ => true
  | .obj _ => true

/-- JavaScript `a || b`: `a` if truthy, else `b`. -/
def jsOr (a b : JSVal) : JSVal :=
  if truthy a then a else b

/-- A value is nullish when it is `undefined` or `null`. -/
def nullish : JSVal → Bool
  | .undef => true
  | .null => true
  | _ => false

/-- JavaScript `a ?? b`: `a` unless it is nullish, else `b`. -/
def coalesce (a b : JSVal) : JSVal :=
  if nullish a then b else a

/-- Property access `v.k` on an object; absent keys give `undefined`.
The code only reads fixed keys from values it knows to be objects, so
non-object receivers are mapped to `undefined` here. -/
def getField : JSVal → String → JSVal
  | .obj fs, k => ((fs.lookup k).getD .undef)
  | _, _ => (.undef)

/-- Optional chaining `v?.k`: `undefined` on a nullish receiver,
property access otherwise. -/
def optChain (v : JSVal) (k : String) : JSVal :=
  if nullish v then .undef else getField v k

/-- `Array.isArray`. -/
def isArray : JSVal → Bool
  | .arr _ => true
  | _ => false

/-- The elements of an array value (used only after an `isArray`
check in the translated code). -/
def elems : JSVal → List JSVal
  | .arr xs => xs
  | _ => []

/-- Index access `v[i]` on an array; out-of-range gives `undefined`.
Array destructuring `[a, b] = v` in the source is modelled as the two
index accesses `v[0]`, `v[1]`. -/
def jsIndex : JSVal → Nat → JSVal
  | .arr xs, i => xs.getD i (.undef)
  | _, _ => (.undef)

end JSVal

/-- Accumulates the value and digit count of the maximal leading run of
decimal digits of a character list, returning the rest. -/
def parseDigitsAux : ℕ → ℕ → List Char → ℕ × ℕ × List Char
  | acc, n, [] => (acc, n, [])
  | acc, n, c :: cs =>
    if c.isDigit then parseDigitsAux (10 * acc + (c.toNat - 48)) (n + 1) cs
    else (acc, n, c :: cs)

/-- JavaScript `parseFloat` on a character sequence, for the plain
decimal literals this application's station coordinates use: optional
leading whitespace, an optional sign, then digits with an optional
decimal point.  `none` models `NaN` (no digits found). -/
def parseFloatChars (cs : List Char) : Option ℚ :=
  let cs := cs.dropWhile (fun c => c == ' ' || c == '\t' || c == '\n')
  let signAndRest : ℚ × List Char :=
    match cs with
    | '-' :: rest => (-1, rest)
    | '+' :: rest => (1, rest)
    | _ => (1, cs)
  let sign := signAndRest.1
  let afterSign := signAndRest.2
  let ipRes := parseDigitsAux 0 0 afterSign
  match ipRes.2.2 with
  | '.' :: r2 =>
    let fpRes := parseDigitsAux 0 0 r2
    if ipRes.2.1 + fpRes.2.1 = 0 then none
    else some (sign * ((ipRes.1 : ℚ) + (fpRes.1 : ℚ) / (10 : ℚ) ^ fpRes.2.1))
  | _ => if ipRes.2.1 = 0 then none else some (sign * (ipRes.1 : ℚ))

/-- JavaScript `parseFloat` on a JS value: numbers pass through, strings
are parsed, everything else (undefined, null, booleans, arrays, objects
whose string form starts with no digit) yields NaN, i.e. `none`. -/
def parseFloat : JSVal → Option ℚ
  | .num q => some q
  | .str s => parseFloatChars s.data
  | _ => none

open JSVal in
/-- A raw station record as returned by `GET /api/stations`.  The code
reads exactly these keys (plus `City`/`city`, display-only and not part
of any claim); a key missing from the JSON record is `undefined`. -/
structure Station where
  station_id : JSVal := (.undef)
  StationId : JSVal := (.undef)
  station_name : JSVal := (.undef)
  StationName : JSVal := (.undef)
  latitude : JSVal := (.undef)
  Latitude : JSVal := (.undef)
  longitude : JSVal := (.undef)
  Longitude : JSVal := (.undef)

/-- Canonical identifier resolution, `s.station_id || s.StationId`, as
written in the dropdown options (App.js lines 74, 91), the dropdown
values (lines 65, 82), the lookup on change (lines 68, 85) and the
marker id (MapView.js line 50). -/
def stationId (s : Station) : JSVal :=
  JSVal.jsOr s.station_id s.StationId

/-- Canonical display-name resolution,
`s.StationName || s.station_name || id`, as written in the dropdown
options (App.js lines 75, 92) and the marker name (MapView.js
line 51). -/
def stationName (s : Station) : JSVal :=
  JSVal.jsOr s.StationName (JSVal.jsOr s.station_name (stationId s))

/-- MapView.js `toLat`: `parseFloat(s.latitude ?? s.Latitude)`; `none`
is NaN. -/
def toLat (s : Station) : Option ℚ :=
  parseFloat (JSVal.coalesce s.latitude s.Latitude)

/-- MapView.js `toLon`: `parseFloat(s.longitude ?? s.Longitude)`; `none`
is NaN. -/
def toLon (s : Station) : Option ℚ :=
  parseFloat (JSVal.coalesce s.longitude s.Longitude)

/-- The canonical record the use sites agree on: identifier, display
name, parsed latitude and longitude. -/
structure CanonicalStation where
  id : JSVal
  name : JSVal
  lat : Option ℚ
  lon : Option ℚ

/-- Normalization of one raw station record into the canonical record,
assembled from the per-field resolutions the code repeats at each use
site (MapView.js lines 19-24 and 50-51, App.js lines 73-77). -/
def normalizeStation (s : Station) : CanonicalStation :=
  { id := stationId s, name := stationName s, lat := toLat s, lon := toLon s }

/-- A station record carrying the given id/name/latitude/longitude
values only under the capitalized field-name convention. -/
def capsOnly (idv nmv latv lonv : JSVal) : Station :=
  { StationId := idv, StationName := nmv, Latitude := latv, Longitude := lonv }

/-- A station record carrying the given id/name/latitude/longitude
values only under the lowercase/snake field-name convention. -/
def snakeOnly (idv nmv latv lonv : JSVal) : Station :=
  { station_id := idv, station_name := nmv, latitude := latv, longitude := lonv }

/-- Modelled from the spec wording of claim C1 only (for comparison with
`stationName`, which is translated from the source): a display-name
resolution that prefers the lower-case/snake field, falls back to the
capitalized field, and finally to the raw identifier. -/
def specStationName (s : Station) : JSVal :=
  JSVal.jsOr s.station_name (JSVal.jsOr s.StationName (stationId s))

/-- The selection state `picked`: an optional start and an optional end
station (JS `null` is `Option.none`).  The JS field `end` is a Lean
keyword, so it is named `stop` here. -/
structure Picked where
  start : Option Station := none
  stop : Option Station := none

/-- App.js `canPredict`: `picked.start && picked.end`; the stations are
objects (truthy) or `null`, so the condition holds exactly when both
are present. -/
def canPredict (p : Picked) : Bool :=
  p.start.isSome && p.stop.isSome

/-- App.js `startLabel` (lines 26-28): the picked start station's
`StationName || station_name || StationId || station_id`, or the
placeholder when nothing is picked. -/
def startLabel (p : Picked) : JSVal :=
  match p.start with
  | none => .str "Select start"
  | some s =>
    JSVal.jsOr s.StationName
      (JSVal.jsOr s.station_name (JSVal.jsOr s.StationId s.station_id))

/-- App.js `endLabel` (lines 30-32), same resolution for the picked end
station. -/
def endLabel (p : Picked) : JSVal :=
  match p.stop with
  | none => .str "Select end"
  | some s =>
    JSVal.jsOr s.StationName
      (JSVal.jsOr s.station_name (JSVal.jsOr s.StationId s.station_id))

/-- The App state the predict action touches: the loading flag and the
last stored prediction result (`routesResult`, initially `null`). -/
structure AppState where
  loading : Bool := false
  routesResult : JSVal := .null
  picked : Picked := {}

/-- The outcome of the awaited `predictRoute` call: the parsed response
body on success, or a thrown error. -/
inductive RequestOutcome where
  | ok : JSVal → RequestOutcome
  | failed : RequestOutcome

/-- App.js `onPredict` (lines 39-57), as a state transition given the
outcome of the network call: bail out when `canPredict` is false;
otherwise set loading, store the response inside `try` on success (the
`catch` arm only alerts), and clear loading after the `try`/`catch` on
every path. -/
def onPredict (st : AppState) (outcome : RequestOutcome) : AppState :=
  if canPredict st.picked = false then st
  else
    let st1 := { st with loading := true }
    let st2 :=
      match outcome with
      | .ok res => { st1 with routesResult := res }
      | .failed => st1
    { st2 with loading := false }

/-- MapView.js inner remap `([lon, lat]) => [lat, lon]` (line 33):
array destructuring of a coordinate pair followed by rebuilding in the
swapped order, modelled via index access. -/
def swapPair (p : JSVal) : JSVal :=
  .arr [JSVal.jsIndex p 1, JSVal.jsIndex p 0]

/-- MapView.js `polylines` (lines 27-34): read
`routesResult?.ors_geometry`; if it is not an array, no overlays;
otherwise keep only the entries that are arrays and remap each of their
coordinate pairs from (lon, lat) to (lat, lon). -/
def polylines (routesResult : JSVal) : List JSVal :=
  let g := JSVal.optChain routesResult "ors_geometry"
  if JSVal.isArray g then
    ((JSVal.elems g).filter JSVal.isArray).map
      (fun r => .arr ((JSVal.elems r).map swapPair))
  else []

/-- A rendered map marker: its position and the id/name shown in the
popup (MapView.js lines 56-74). -/
structure Marker where
  lat : ℚ
  lon : ℚ
  id : JSVal
  name : JSVal

/-- The marker MapView.js renders for one station (lines 45-76): parse
its coordinates with `toLat`/`toLon` and skip the station (`return
null`, which React renders as nothing) when either is NaN; otherwise a
marker at `[lat, lon]` with the resolved id and name. -/
def markerOf (s : Station) : Option Marker :=
  match toLat s, toLon s with
  | some lat, some lon =>
    some { lat := lat, lon := lon, id := stationId s, name := stationName s }
  | _, _ => none

/-- MapView.js station markers (lines 45-76): one marker per station
whose coordinates both parse; the others render as nothing. -/
def markers (stations : List Station) : List Marker :=
  stations.filterMap markerOf

/-- One `<option>` of a station dropdown: its key/value (the resolved
id) and its label (the resolved name). -/
structure SelectOption where
  value : JSVal
  label : JSVal

/-- The option rendered for one station in either dropdown (App.js
lines 73-77 and 90-94): value `station_id || StationId`, label
`StationName || station_name || id`. -/
def optionOf (s : Station) : SelectOption :=
  { value := stationId s, label := stationName s }

/-- The start dropdown's station options (App.js lines 73-77): one per
station, no filtering. -/
def startOptions (stations : List Station) : List SelectOption :=
  stations.map optionOf

/-- The end dropdown's station options (App.js lines 90-94): one per
station, no filtering. -/
def endOptions (stations : List Station) : List SelectOption :=
  stations.map optionOf

/-- One row of the routes summary (RoutePanel.js lines 10-15), with the
keys the code uses: `idx`, `avg`, `max`, `waypoints`. -/
structure RouteSummary where
  idx : JSVal
  avg : JSVal
  max : JSVal
  waypoints : JSVal

/-- RoutePanel.js summary entry for one route object `r` (lines 11-14):
`idx` is `r.route_index`, `avg` is `r.avg_forecast_pm2_5[0]` when that
field is an array and `null` otherwise, `max` likewise from
`r.max_forecast_pm2_5`, and `waypoints` is `r.waypoints`. -/
def summaryEntry (r : JSVal) : RouteSummary :=
  { idx := JSVal.getField r "route_index"
    avg :=
      if JSVal.isArray (JSVal.getField r "avg_forecast_pm2_5") then
        JSVal.jsIndex (JSVal.getField r "avg_forecast_pm2_5") 0
      else .null
    max :=
      if JSVal.isArray (JSVal.getField r "max_forecast_pm2_5") then
        JSVal.jsIndex (JSVal.getField r "max_forecast_pm2_5") 0
      else .null
    waypoints := JSVal.getField r "waypoints" }

/-- RoutePanel.js `routes` (line 9): `routesResult.routes || []`. -/
def routesOf (routesResult : JSVal) : List JSVal :=
  JSVal.elems (JSVal.jsOr (JSVal.getField routesResult "routes") (.arr []))

/-- RoutePanel.js `summary` (lines 10-15): the per-route summary rows. -/
def summary (routesResult : JSVal) : List RouteSummary :=
  (routesOf routesResult).map summaryEntry

/-- What the result panel shows: the initial "No route predicted yet"
message, the "No valid predictions returned." message, or the summary
rows. -/
inductive PanelState where
  | noResultYet : PanelState
  | noValidPredictions : PanelState
  | rows : List RouteSummary → PanelState

/-- RoutePanel.js rendering dispatch (lines 4-21): a falsy
`routesResult` (the initial `null`) gives the "no result yet" message;
otherwise an empty summary gives the "no valid predictions" message and
a non-empty one gives the rows. -/
def routePanelState (routesResult : JSVal) : PanelState :=
  if JSVal.truthy routesResult = false then .noResultYet
  else if (summary routesResult).isEmpty then .noValidPredictions
  else .rows (summary routesResult)

/-- RoutePanel.js rendering of one statistic (lines 24-25):
`value ?? "N/A"`. -/
def renderStat (v : JSVal) : JSVal :=
  JSVal.coalesce v (.str "N/A")

/-- A station record carrying both naming conventions with different
name values, to compare the two resolution orders on. -/
def bothNamesStation : Station :=
  { StationName := .str "Caps", station_name := .str "snake" }

/-- A fully populated snake-convention station record. -/
def demoFullStation : Station :=
  { station_id := .str "S1", station_name := .str "Alpha",
    latitude := .num 10, longitude := .num 20 }

/-- The prediction result of the spec's axis-swap example: geometry
`[[[10,20],[11,21]]]`. -/
def demoGeomResult : JSVal :=
  .obj [("ors_geometry",
    .arr [.arr [.arr [.num 10, .num 20], .arr [.num 11, .num 21]]])]

/-- The route entry of the spec's summarizer example. -/
def demoRouteEntry : JSVal :=
  .obj [("route_index", .num 1), ("avg_forecast_pm2_5", .arr [.num 5.2]),
        ("max_forecast_pm2_5", .arr [.num 9.1]), ("waypoints", .num 4)]

/-- An app state in which both a start and an end station are picked,
so `canPredict` holds and a predict click performs a request. -/
def predictReadyState : AppState :=
  { routesResult := .obj [("routes", .arr [])],
    picked := { start := some demoFullStation, stop := some bothNamesStation } }

/-- A station whose latitude does not parse as a number. -/
def badLatStation : Station :=
  { station_id := .str "BAD", station_name := .str "Broken",
    latitude := .str "abc", longitude := .num 77 }


/-- A falsy first operand of `||` yields the second operand. -/
theorem jsOr_undef (b : JSVal) : JSVal.jsOr .undef b = b := rfl

/-- A nullish first operand of `??` yields the second operand. -/
theorem coalesce_undef (b : JSVal) : JSVal.coalesce .undef b = b := rfl

/-- Coalescing with `undefined` on the right does not change the result
of `parseFloat`: a nullish left operand parses as NaN either way. -/
theorem parseFloat_coalesce_undef (v : JSVal) :
    parseFloat (JSVal.coalesce v .undef) = parseFloat v := by
  cases v <;> rfl

/-- C1 counterexample: the claim says the display name prefers the
snake-case field; on a record carrying both conventions the code
resolves the capitalized `StationName` ("Caps"), not the snake-case
`station_name` ("snake") predicted by the claim. -/
theorem C1_snake_preference_refuted :
    stationName bothNamesStation ≠ specStationName bothNamesStation := by
  intro h
  have h1 : stationName bothNamesStation = .str "Caps" := rfl
  have h2 : specStationName bothNamesStation = .str "snake" := rfl
  rw [h1, h2] at h
  exact absurd (JSVal.str.inj h) (by decide)

/-- C1 (amended): the identifier prefers the snake-case field and falls
back to the capitalized one; latitude and longitude prefer the
lowercase field and fall back to the capitalized one; the display name
prefers the CAPITALIZED field, then the snake-case field, then the
resolved identifier. -/
theorem C1_field_resolution (s : Station) :
    (JSVal.truthy s.station_id = true → stationId s = s.station_id)
    ∧ (JSVal.truthy s.station_id = false → stationId s = s.StationId)
    ∧ (JSVal.truthy s.StationName = true → stationName s = s.StationName)
    ∧ (JSVal.truthy s.StationName = false → JSVal.truthy s.station_name = true →
        stationName s = s.station_name)
    ∧ (JSVal.truthy s.StationName = false → JSVal.truthy s.station_name = false →
        stationName s = stationId s)
    ∧ (JSVal.nullish s.latitude = false → toLat s = parseFloat s.latitude)
    ∧ (JSVal.nullish s.latitude = true → toLat s = parseFloat s.Latitude)
    ∧ (JSVal.nullish s.longitude = false → toLon s = parseFloat s.longitude)
    ∧ (JSVal.nullish s.longitude = true → toLon s = parseFloat s.Longitude) := by
  refine ⟨?_, ?_, ?_, ?_, ?_, ?_, ?_, ?_, ?_⟩ <;> intro h
  · simp [stationId, JSVal.jsOr, h]
  · simp [stationId, JSVal.jsOr, h]
  · simp [stationName, JSVal.jsOr, h]
  · intro h2
    simp [stationName, JSVal.jsOr, h, h2]
  · intro h2
    simp [stationName, stationId, JSVal.jsOr, h, h2]
  · simp [toLat, JSVal.coalesce, h]
  · simp [toLat, JSVal.coalesce, h]
  · simp [toLon, JSVal.coalesce, h]
  · simp [toLon, JSVal.coalesce, h]

/-- C1 witness: on a fully snake-convention record with a truthy id and
a capitalized-name record, the resolutions evaluate as the amended
claim states. -/
theorem C1_field_resolution_witness :
    stationId demoFullStation = demoFullStation.station_id
    ∧ stationName bothNamesStation = bothNamesStation.StationName
    ∧ toLat demoFullStation = parseFloat demoFullStation.latitude :=
  ⟨(C1_field_resolution demoFullStation).1 (by decide),
   (C1_field_resolution bothNamesStation).2.2.1 (by decide),
   (C1_field_resolution demoFullStation).2.2.2.2.2.1 (by decide)⟩

/-- C2: when the stored result's geometry field is an array, the
overlay builder keeps its array entries and remaps each coordinate
pair; a pair `[lon, lat]` is remapped to `[lat, lon]`; and the spec's
example geometry `[[[10,20],[11,21]]]` yields `[[[20,10],[21,11]]]`. -/
theorem C2_axis_swap :
    (∀ res g, JSVal.getField res "ors_geometry" = .arr g →
      polylines res =
        (g.filter JSVal.isArray).map (fun r => .arr ((JSVal.elems r).map swapPair)))
    ∧ (∀ a b, swapPair (.arr [a, b]) = .arr [b, a])
    ∧ polylines demoGeomResult =
        [.arr [.arr [.num 20, .num 10], .arr [.num 21, .num 11]]] := by
  refine ⟨?_, ?_, rfl⟩
  · intro res g h
    have hn : JSVal.nullish res = false := by
      cases res <;> first
        | rfl
        | exact absurd h (by intro h2; exact JSVal.noConfusion h2)
    simp [polylines, JSVal.optChain, hn, h, JSVal.isArray, JSVal.elems]
  · intro a b
    rfl

/-- C2 witness: the general conjunct applied to the spec's example
geometry. -/
theorem C2_axis_swap_witness :
    polylines demoGeomResult =
      [.arr [.arr [.num 20, .num 10], .arr [.num 21, .num 11]]] :=
  (C2_axis_swap.1 demoGeomResult
    [.arr [.arr [.num 10, .num 20], .arr [.num 11, .num 21]]] rfl).trans rfl

/-- C3: `canPredict` holds exactly when both the start and the end
selection are non-null. -/
theorem C3_canPredict_iff (p : Picked) :
    canPredict p = true ↔ p.start ≠ none ∧ p.stop ≠ none := by
  cases p with
  | mk a b => cases a <;> cases b <;> simp [canPredict]

/-- C4: a nullish stored result, a result without the geometry field,
and a result whose geometry field is not an array all yield an empty
overlay set; and removing a non-array entry from the geometry array
does not change the overlays (non-array entries are filtered out before
remapping). -/
theorem C4_geometry_tolerance :
    (∀ res, JSVal.isArray (JSVal.optChain res "ors_geometry") = false →
      polylines res = [])
    ∧ polylines .null = []
    ∧ polylines (.obj []) = []
    ∧ (∀ pre r post, JSVal.isArray r = false →
        polylines (.obj [("ors_geometry", .arr (pre ++ r :: post))]) =
        polylines (.obj [("ors_geometry", .arr (pre ++ post))])) := by
  refine ⟨?_, rfl, rfl, ?_⟩
  · intro res h
    simp [polylines, h]
  · intro pre r post h
    have key : ∀ l : List JSVal,
        polylines (.obj [("ors_geometry", .arr l)]) =
          (l.filter JSVal.isArray).map
            (fun q => .arr ((JSVal.elems q).map swapPair)) :=
      fun l => rfl
    rw [key, key]
    simp [List.filter_append, List.filter_cons, h]

/-- C4 witness: a result whose only field is `routes` has no geometry
and yields zero overlays; and a geometry containing the non-array entry
`7` yields the same overlays as the geometry without it. -/
theorem C4_geometry_tolerance_witness :
    polylines (.obj [("routes", .arr [])]) = []
    ∧ polylines (.obj [("ors_geometry",
        .arr [.num 7, .arr [.arr [.num 1, .num 2]]])]) =
      polylines (.obj [("ors_geometry", .arr [.arr [.arr [.num 1, .num 2]]])]) :=
  ⟨C4_geometry_tolerance.1 (.obj [("routes", .arr [])]) rfl,
   C4_geometry_tolerance.2.2.2 [] (.num 7) [.arr [.arr [.num 1, .num 2]]] rfl⟩

/-- C5: each summary row takes `idx` from `route_index` and `waypoints`
from `waypoints`; `avg` (resp. `max`) is the first element of
`avg_forecast_pm2_5` (resp. `max_forecast_pm2_5`) when that field is an
array and `null` otherwise, the null being rendered as "N/A"; the
summarizer maps this over the route entries, and the spec's example
entry summarizes to `{idx: 1, avg: 5.2, max: 9.1, waypoints: 4}`. -/
theorem C5_summary_rows (r : JSVal) :
    (summaryEntry r).idx = JSVal.getField r "route_index"
    ∧ (summaryEntry r).waypoints = JSVal.getField r "waypoints"
    ∧ (∀ a t, JSVal.getField r "avg_forecast_pm2_5" = .arr (a :: t) →
        (summaryEntry r).avg = a)
    ∧ (JSVal.isArray (JSVal.getField r "avg_forecast_pm2_5") = false →
        (summaryEntry r).avg = .null)
    ∧ (∀ a t, JSVal.getField r "max_forecast_pm2_5" = .arr (a :: t) →
        (summaryEntry r).max = a)
    ∧ (JSVal.isArray (JSVal.getField r "max_forecast_pm2_5") = false →
        (summaryEntry r).max = .null)
    ∧ renderStat .null = .str "N/A"
    ∧ summary (.obj [("routes", .arr [demoRouteEntry])]) =
        [{ idx := .num 1, avg := .num 5.2, max := .num 9.1, waypoints := .num 4 }] := by
  refine ⟨rfl, rfl, ?_, ?_, ?_, ?_, rfl, rfl⟩
  · intro a t h
    simp [summaryEntry, h, JSVal.isArray, JSVal.jsIndex]
  · intro h
    simp [summaryEntry, h]
  · intro a t h
    simp [summaryEntry, h, JSVal.isArray, JSVal.jsIndex]
  · intro h
    simp [summaryEntry, h]

/-- C5 witness: the row conjuncts applied to the spec's example route
entry. -/
theorem C5_summary_rows_witness :
    (summaryEntry demoRouteEntry).avg = .num 5.2
    ∧ (summaryEntry demoRouteEntry).max = .num 9.1
    ∧ (summaryEntry (.obj [])).avg = .null :=
  ⟨(C5_summary_rows demoRouteEntry).2.2.1 (.num 5.2) [] rfl,
   (C5_summary_rows demoRouteEntry).2.2.2.2.1 (.num 9.1) [] rfl,
   (C5_summary_rows (.obj [])).2.2.2.1 rfl⟩

/-- C6: the initial `null` result renders the "no result yet" state; a
stored result object with zero route entries renders the distinct
"no valid predictions" state. -/
theorem C6_panel_states :
    routePanelState .null = .noResultYet
    ∧ (∀ fs, routesOf (.obj fs) = [] → routePanelState (.obj fs) = .noValidPredictions)
    ∧ PanelState.noResultYet ≠ PanelState.noValidPredictions := by
  refine ⟨rfl, ?_, fun h => PanelState.noConfusion h⟩
  intro fs h
  simp [routePanelState, summary, h, JSVal.truthy]

/-- C6 witness: a stored result whose `routes` field is the empty array
renders the "no valid predictions" state. -/
theorem C6_panel_states_witness :
    routePanelState (.obj [("routes", .arr [])]) = .noValidPredictions :=
  C6_panel_states.2.1 [("routes", .arr [])] rfl

/-- C7 counterexample: with the empty string as the shared identifier
value, the snake-only record normalizes to the id `undefined` (the
falsy `""` loses the `||` fallback) while the caps-only record keeps
the id `""`, so the canonical records differ. -/
theorem C7_empty_id_refuted :
    normalizeStation (snakeOnly (.str "") .undef .undef .undef) ≠
      normalizeStation (capsOnly (.str "") .undef .undef .undef) := by
  intro h
  have h1 : (normalizeStation (snakeOnly (.str "") .undef .undef .undef)).id
      = .undef := rfl
  have h2 : (normalizeStation (capsOnly (.str "") .undef .undef .undef)).id
      = .str "" := rfl
  rw [h] at h1
  rw [h2] at h1
  exact JSVal.noConfusion h1

/-- C7 (amended): provided the shared identifier value is truthy (in
particular a non-empty string), a record carrying the values only under
the snake convention and one carrying them only under the capitalized
convention normalize to the same canonical record. -/
theorem C7_convention_independence (idv nmv latv lonv : JSVal)
    (h : JSVal.truthy idv = true) :
    normalizeStation (snakeOnly idv nmv latv lonv) =
      normalizeStation (capsOnly idv nmv latv lonv) := by
  have hid : JSVal.jsOr idv .undef = idv := by
    simp [JSVal.jsOr, h]
  show CanonicalStation.mk (JSVal.jsOr idv .undef)
      (JSVal.jsOr .undef (JSVal.jsOr nmv (JSVal.jsOr idv .undef)))
      (parseFloat (JSVal.coalesce latv .undef))
      (parseFloat (JSVal.coalesce lonv .undef)) =
    CanonicalStation.mk (JSVal.jsOr .undef idv)
      (JSVal.jsOr nmv (JSVal.jsOr .undef (JSVal.jsOr .undef idv)))
      (parseFloat (JSVal.coalesce .undef latv))
      (parseFloat (JSVal.coalesce .undef lonv))
  simp only [jsOr_undef, coalesce_undef, hid, parseFloat_coalesce_undef]

/-- C7 witness: the amended claim at concrete field values. -/
theorem C7_convention_independence_witness :
    normalizeStation (snakeOnly (.str "S1") (.str "Alpha") (.num 10) (.num 20)) =
      normalizeStation (capsOnly (.str "S1") (.str "Alpha") (.num 10) (.num 20)) :=
  C7_convention_independence (.str "S1") (.str "Alpha") (.num 10) (.num 20) (by decide)

/-- C8: when a predict request is performed, a successful call stores
the response as the new result (replacing any prior one) and a failed
call leaves the stored result unchanged. -/
theorem C8_result_lifecycle (st : AppState) (h : canPredict st.picked = true) :
    (∀ res, (onPredict st (.ok res)).routesResult = res)
    ∧ (onPredict st .failed).routesResult = st.routesResult := by
  constructor
  · intro res
    simp [onPredict, h]
  · simp [onPredict, h]

/-- C8 witness: from a state holding a prior result, a successful call
replaces it and a failed call keeps it. -/
theorem C8_result_lifecycle_witness :
    (onPredict predictReadyState (.ok (.obj [("routes", .arr [.null])]))).routesResult
      = .obj [("routes", .arr [.null])]
    ∧ (onPredict predictReadyState .failed).routesResult
      = predictReadyState.routesResult :=
  ⟨(C8_result_lifecycle predictReadyState (by decide)).1 (.obj [("routes", .arr [.null])]),
   (C8_result_lifecycle predictReadyState (by decide)).2⟩

/-- C9: a station whose latitude or longitude does not parse contributes
no marker (the remaining stations' markers are untouched) yet its option
still appears in both the start and the end dropdown. -/
theorem C9_unparseable_station (pre post : List Station) (s : Station)
    (h : toLat s = none ∨ toLon s = none) :
    markers (pre ++ s :: post) = markers pre ++ markers post
    ∧ optionOf s ∈ startOptions (pre ++ s :: post)
    ∧ optionOf s ∈ endOptions (pre ++ s :: post) := by
  have hnone : markerOf s = none := by
    rcases h with h | h
    · unfold markerOf
      rw [h]
    · unfold markerOf
      rw [h]
      cases toLat s <;> rfl
  refine ⟨?_, ?_, ?_⟩
  · simp [markers, List.filterMap_append, List.filterMap_cons, hnone]
  · exact List.mem_map_of_mem optionOf (by simp)
  · exact List.mem_map_of_mem optionOf (by simp)

/-- C9 witness: with a parseable station before it, the station with
latitude "abc" yields no marker while both dropdowns list it. -/
theorem C9_unparseable_station_witness :
    markers [demoFullStation, badLatStation] = markers [demoFullStation] ++ markers []
    ∧ optionOf badLatStation ∈ startOptions [demoFullStation, badLatStation]
    ∧ optionOf badLatStation ∈ endOptions [demoFullStation, badLatStation] :=
  C9_unparseable_station [demoFullStation] [] badLatStation (by decide)

/-- C10: whenever the predict action performs a request, the loading
flag is false after the call completes, on the success path and on the
failure path alike. -/
theorem C10_loading_reset (st : AppState) (outcome : RequestOutcome)
    (h : canPredict st.picked = true) :
    (onPredict st outcome).loading = false := by
  cases outcome <;> simp [onPredict, h]

/-- C10 witness: from a predict-ready state, the loading flag is false
after a failed call and after a successful call. -/
theorem C10_loading_reset_witness :
    (onPredict predictReadyState .failed).loading = false
    ∧ (onPredict predictReadyState (.ok .null)).loading = false :=
  ⟨C10_loading_reset predictReadyState .failed (by decide),
   C10_loading_reset predictReadyState (.ok .null) (by decide)⟩
